import Mathlib

/-!
Verification of the startup orchestrator and fork-interval resolver of
zkevm-ethtx-manager (cmd/run.go), in particular the function
`forkIDIntervals` (run.go lines 298-364), the migration steps of `start`
(lines 53-57, 122-127) and the shutdown path `waitSignal` (lines 145-161).

The collaborators (Persistent Store, L1 Oracle, transaction handle) are
modelled by a `World` record holding their responses; one run of the
resolver is a pure function from a `World` and the genesis block number to
the returned interval list, the returned Go error value, the trace of
collaborator calls it performed, and the committed contents of the store
after the run.
-/

namespace ZkEvmEthTxManager

/-- The fields of `state.ForkIDInterval` the resolver handles. A `ToBlockNumber`
of zero stands for an open-ended interval. -/
structure ForkIDInterval where
  ForkId : Nat
  FromBlockNumber : Nat
  ToBlockNumber : Nat
  deriving DecidableEq, Repr

/-- An error produced by a Persistent Store query. `notSync` marks
`state.ErrStateNotSynchronized`, the value `errors.Is` tests for in the
resolver; `id` identifies the underlying error value. -/
structure StoreErr where
  notSync : Bool
  id : Nat
  deriving DecidableEq, Repr

/-- Go error values as the resolver builds and returns them: primitive
collaborator errors (store-side and oracle-side, identified by `id`),
`fmt.Errorf` wrappers whose format string interpolates a cause, and plain
`fmt.Errorf` messages with no cause. -/
inductive Err where
  | storeE (notSync : Bool) (id : Nat)
  | oracleE (id : Nat)
  | wrapped (msg : String) (cause : Err)
  | plain (msg : String)
  deriving DecidableEq, Repr

/-- Whether the returned error value carries (directly or through wrapping)
the primitive error with the given id. -/
def Err.mentionsId : Err → Nat → Bool
  | .storeE _ i, n => i == n
  | .oracleE i, n => i == n
  | .wrapped _ c, n => c.mentionsId n
  | .plain _, _ => false

/-- One observable collaborator call made by a run of `forkIDIntervals`:
an oracle query `etherman.GetForks(from, to)`, `st.BeginStateTransaction`,
`st.AddForkID`, `dbTx.Commit`, `dbTx.Rollback`. -/
inductive Event where
  | oracleCall (fromBlock toBlock : Nat)
  | txBegin
  | txAdd (f : ForkIDInterval)
  | txCommit
  | txRollback
  deriving DecidableEq, Repr

/-- The collaborators' behaviour during one run: the committed rows of the
store, the outcomes of the two store reads, the oracle's answer for each
queried range, and the outcomes of the transactional operations (an
`Option Nat` is `some id` when the operation fails with error `id`). -/
structure World where
  storeContents : List ForkIDInterval
  getForkIDsErr : Option StoreErr
  lastBlock : Option Nat
  getLastBlockErr : Option StoreErr
  getForks : Nat → Nat → Except Nat (List ForkIDInterval)
  beginTxErr : Option Nat
  addForkIDErr : ForkIDInterval → Option Nat
  commitErr : Option Nat
  rollbackErr : Option Nat

/-- What one run of `forkIDIntervals` produces: the returned interval slice,
the returned error (`none` for a nil error), the trace of collaborator calls
in order, and the committed store contents after the run. -/
structure RunOut where
  intervals : List ForkIDInterval
  error : Option Err
  events : List Event
  finalStore : List ForkIDInterval
  deriving DecidableEq, Repr

/- The format strings of the errors built in run.go lines 298-364. -/

def msgGetForkIDs : String := "error getting forkIDs from db. Error: %v"

def msgLastBlock : String := "error checking lastL1BlockSynced. Error: %v"

def msgGetForks : String := "error getting forks. Please check the configuration. Error: %v"

def msgNoForkID : String :=
  "error: no forkID received. It should receive at least one, please check the configuration..."

def msgBeginTx : String := "error creating dbTx. Error: %v"

def msgAddForkID : String := "error adding forkID to db. Error: %v"

def msgCommit : String := "error committing dbTx. Error: %v"

/-- The slice `st.GetForkIDs` hands back: nil alongside an error, the stored
rows on success (run.go line 300). -/
def readForkIDs (w : World) : List ForkIDInterval :=
  match w.getForkIDsErr with
  | some _ => []
  | none => w.storeContents

/-- The pointer `st.GetLastBlock` hands back: nil alongside an error, the
last synchronized block on success (run.go line 309). -/
def readLastBlock (w : World) : Option Nat :=
  match w.getLastBlockErr with
  | some _ => none
  | none => w.lastBlock

/-- The `for _, f := range forkIntervals` write loop of run.go lines 329-340:
calls `st.AddForkID` on each interval in order and stops at the first failing
call. Returns the `txAdd` events for the calls made and the id of the first
failure, when there is one. -/
def addLoop (w : World) : List ForkIDInterval → List Event × Option Nat
  | [] => ([], none)
  | f :: rest =>
    match w.addForkIDErr f with
    | some wid => ([Event.txAdd f], some wid)
    | none =>
      let r := addLoop w rest
      (Event.txAdd f :: r.1, r.2)

/-- run.go lines 323-351: open a transaction, write every interval in order,
commit. A failing write (or a failing commit) triggers a rollback; when the
rollback itself fails, the bare rollback error is returned. The store gains
the written rows only on a successful commit. -/
def persistForks (w : World) (pre : List Event) (forkIntervals : List ForkIDInterval) : RunOut :=
  match w.beginTxErr with
  | some bid =>
    ⟨[], some (.wrapped msgBeginTx (.storeE false bid)), pre ++ [Event.txBegin], w.storeContents⟩
  | none =>
    let r := addLoop w forkIntervals
    let evs := pre ++ [Event.txBegin] ++ r.1
    match r.2 with
    | some wid =>
      match w.rollbackErr with
      | some rid =>
        ⟨[], some (.storeE false rid), evs ++ [Event.txRollback], w.storeContents⟩
      | none =>
        ⟨[], some (.wrapped msgAddForkID (.storeE false wid)),
          evs ++ [Event.txRollback], w.storeContents⟩
    | none =>
      match w.commitErr with
      | some cid =>
        (match w.rollbackErr with
        | some rid =>
          ⟨[], some (.storeE false rid),
            evs ++ [Event.txCommit, Event.txRollback], w.storeContents⟩
        | none =>
          ⟨[], some (.wrapped msgCommit (.storeE false cid)),
            evs ++ [Event.txCommit, Event.txRollback], w.storeContents⟩)
      | none =>
        ⟨forkIntervals, none, evs ++ [Event.txCommit], w.storeContents ++ forkIntervals⟩

/-- run.go lines 313-361: the branch taken when the store reported zero
intervals, parameterised by the (possibly nil) last synchronized block. With
a last block the oracle is queried over [genesis, lastBlock] and a non-empty
answer is persisted; without one the oracle is queried over
[genesis, genesis] and nothing is persisted. -/
def emptyStoreBranch (w : World) (genesisBlockNumber : Nat) (lastBlock : Option Nat) : RunOut :=
  match lastBlock with
  | some lastBlockNumber =>
    match w.getForks genesisBlockNumber lastBlockNumber with
    | .error oid =>
      ⟨[], some (.wrapped msgGetForks (.oracleE oid)),
        [Event.oracleCall genesisBlockNumber lastBlockNumber], w.storeContents⟩
    | .ok forkIntervals =>
      if forkIntervals.length == 0 then
        ⟨[], some (.plain msgNoForkID),
          [Event.oracleCall genesisBlockNumber lastBlockNumber], w.storeContents⟩
      else
        persistForks w [Event.oracleCall genesisBlockNumber lastBlockNumber] forkIntervals
  | none =>
    match w.getForks genesisBlockNumber genesisBlockNumber with
    | .error oid =>
      ⟨[], some (.wrapped msgGetForks (.oracleE oid)),
        [Event.oracleCall genesisBlockNumber genesisBlockNumber], w.storeContents⟩
    | .ok forkIntervals =>
      if forkIntervals.length == 0 then
        ⟨[], some (.plain msgNoForkID),
          [Event.oracleCall genesisBlockNumber genesisBlockNumber], w.storeContents⟩
      else
        ⟨forkIntervals, none,
          [Event.oracleCall genesisBlockNumber genesisBlockNumber], w.storeContents⟩

/-- run.go lines 304-363: after the store read, given the queried intervals.
A non-empty result is returned verbatim; an empty one sends control to the
last-block lookup, whose non-`ErrStateNotSynchronized` failure returns
immediately. -/
def afterRead (w : World) (genesisBlockNumber : Nat)
    (forkIDIntervals : List ForkIDInterval) : RunOut :=
  if forkIDIntervals.length == 0 then
    match w.getLastBlockErr with
    | some e =>
      if !e.notSync then
        ⟨[], some (.wrapped msgLastBlock (.storeE e.notSync e.id)), [], w.storeContents⟩
      else
        emptyStoreBranch w genesisBlockNumber (readLastBlock w)
    | none => emptyStoreBranch w genesisBlockNumber (readLastBlock w)
  else
    ⟨forkIDIntervals, none, [], w.storeContents⟩

/-- Shallow embedding of `forkIDIntervals` (run.go lines 298-364). -/
def forkIDIntervalsRun (w : World) (genesisBlockNumber : Nat) : RunOut :=
  match w.getForkIDsErr with
  | some e =>
    if !e.notSync then
      ⟨[], some (.wrapped msgGetForkIDs (.storeE e.notSync e.id)), [], w.storeContents⟩
    else
      afterRead w genesisBlockNumber (readForkIDs w)
  | none => afterRead w genesisBlockNumber (readForkIDs w)

/- Concrete intervals and worlds used as witnesses. -/

def fi1 : ForkIDInterval := ⟨1, 100, 3000⟩

def fi2 : ForkIDInterval := ⟨2, 3001, 0⟩

/-- A world whose store already holds two intervals and whose collaborators
all succeed. -/
def Wfull : World where
  storeContents := [fi1, fi2]
  getForkIDsErr := none
  lastBlock := some 5000
  getLastBlockErr := none
  getForks := fun _ _ => .ok [fi1, fi2]
  beginTxErr := none
  addForkIDErr := fun _ => none
  commitErr := none
  rollbackErr := none

/-- Claim C1: when the store read succeeds and hands back a non-empty
interval sequence, the resolver returns that sequence unchanged, performs no
oracle call and no store write (its call trace is empty), and the store is
left as it was. -/
theorem c1_nonempty_store_returned_verbatim (w : World) (g : Nat)
    (hok : w.getForkIDsErr = none) (hne : w.storeContents ≠ []) :
    forkIDIntervalsRun w g = ⟨w.storeContents, none, [], w.storeContents⟩ := by
  have hlen : (w.storeContents.length == 0) = false := by
    simp [List.length_eq_zero, hne]
  simp [forkIDIntervalsRun, readForkIDs, afterRead, hok, hlen]

/-- Witness for C1 at the concrete world `Wfull`. -/
theorem c1_witness :
    Wfull.getForkIDsErr = none ∧ Wfull.storeContents ≠ [] ∧
      forkIDIntervalsRun Wfull 100 = ⟨Wfull.storeContents, none, [], Wfull.storeContents⟩ :=
  ⟨rfl, by decide, c1_nonempty_store_returned_verbatim Wfull 100 rfl (by decide)⟩

/-- When every `AddForkID` call succeeds, the write loop performs one `txAdd`
per interval, in list order, and reports no failure. -/
theorem addLoop_all_ok (w : World) (L : List ForkIDInterval)
    (h : ∀ f ∈ L, w.addForkIDErr f = none) :
    addLoop w L = (L.map Event.txAdd, none) := by
  induction L with
  | nil => rfl
  | cons f rest ih =>
    have hf : w.addForkIDErr f = none := h f (List.mem_cons_self f rest)
    have hrest : ∀ g ∈ rest, w.addForkIDErr g = none :=
      fun g hg => h g (List.mem_cons_of_mem f hg)
    simp [addLoop, hf, ih hrest]

/-- A world with an empty store, a last synchronized block, and collaborators
that all succeed; the oracle answers `[fi1, fi2]` on every range. -/
def Wsync : World where
  storeContents := []
  getForkIDsErr := none
  lastBlock := some 5000
  getLastBlockErr := none
  getForks := fun _ _ => .ok [fi1, fi2]
  beginTxErr := none
  addForkIDErr := fun _ => none
  commitErr := none
  rollbackErr := none

/-- Claim C2: with an empty store and a last synchronized block B, when the
oracle answers the range [genesis, B] with a non-empty list and every
transactional operation succeeds, the resolver queries the oracle exactly
once with that range, opens one transaction, writes every returned interval
in order, commits, and returns the oracle's sequence; the store afterwards
holds exactly that sequence. -/
theorem c2_empty_store_syncs_from_oracle (w : World) (g B : Nat)
    (L : List ForkIDInterval)
    (hreadNF : ∀ e, w.getForkIDsErr = some e → e.notSync = true)
    (hempty : w.storeContents = [])
    (hlbok : w.getLastBlockErr = none) (hlb : w.lastBlock = some B)
    (horacle : w.getForks g B = .ok L) (hLne : L ≠ [])
    (hbegin : w.beginTxErr = none)
    (hadd : ∀ f ∈ L, w.addForkIDErr f = none)
    (hcommit : w.commitErr = none) :
    forkIDIntervalsRun w g =
      ⟨L, none,
        Event.oracleCall g B :: Event.txBegin :: (L.map Event.txAdd ++ [Event.txCommit]),
        L⟩ := by
  have hlen : (L.length == 0) = false := by simp [List.length_eq_zero, hLne]
  have hpersist :
      persistForks w [Event.oracleCall g B] L =
        ⟨L, none,
          Event.oracleCall g B :: Event.txBegin :: (L.map Event.txAdd ++ [Event.txCommit]),
          L⟩ := by
    simp [persistForks, hbegin, addLoop_all_ok w L hadd, hcommit, hempty]
  cases hge : w.getForkIDsErr with
  | some e =>
    have hns := hreadNF e hge
    simp [forkIDIntervalsRun, readForkIDs, afterRead, emptyStoreBranch, readLastBlock,
      hge, hns, hlbok, hlb, horacle, hlen, hpersist]
  | none =>
    simp [forkIDIntervalsRun, readForkIDs, afterRead, emptyStoreBranch, readLastBlock,
      hge, hempty, hlbok, hlb, horacle, hlen, hpersist]

/-- Witness for C2 at the concrete world `Wsync`. -/
theorem c2_witness :
    forkIDIntervalsRun Wsync 100 =
      ⟨[fi1, fi2], none,
        Event.oracleCall 100 5000 :: Event.txBegin ::
          ([fi1, fi2].map Event.txAdd ++ [Event.txCommit]),
        [fi1, fi2]⟩ :=
  c2_empty_store_syncs_from_oracle Wsync 100 5000 [fi1, fi2]
    (fun e he => by simp [Wsync] at he) rfl rfl rfl rfl (by decide) rfl
    (fun f _ => rfl) rfl

/-- A world with an empty store and no last synchronized block; the oracle
answers `[fi1]` on every range. -/
def Wfresh : World where
  storeContents := []
  getForkIDsErr := none
  lastBlock := none
  getLastBlockErr := none
  getForks := fun _ _ => .ok [fi1]
  beginTxErr := none
  addForkIDErr := fun _ => none
  commitErr := none
  rollbackErr := none

/-- Claim C3: with the store reporting zero intervals and no last
synchronized block, when the oracle answers the single-point range
[genesis, genesis] with a non-empty list, the resolver queries the oracle
exactly once with that range, returns the oracle's result, and leaves the
store completely unchanged: no transaction is opened and no interval is
written (the trace holds exactly the one oracle call). -/
theorem c3_fresh_chain_ephemeral (w : World) (g : Nat) (L : List ForkIDInterval)
    (hreadNF : ∀ e, w.getForkIDsErr = some e → e.notSync = true)
    (hempty : readForkIDs w = [])
    (hlbNF : ∀ e, w.getLastBlockErr = some e → e.notSync = true)
    (hnolb : readLastBlock w = none)
    (horacle : w.getForks g g = .ok L) (hLne : L ≠ []) :
    forkIDIntervalsRun w g =
      ⟨L, none, [Event.oracleCall g g], w.storeContents⟩ := by
  have hlen : (L.length == 0) = false := by simp [List.length_eq_zero, hLne]
  have hbranch :
      emptyStoreBranch w g (readLastBlock w) =
        ⟨L, none, [Event.oracleCall g g], w.storeContents⟩ := by
    simp [emptyStoreBranch, hnolb, horacle, hlen]
  cases hge : w.getForkIDsErr with
  | some e =>
    have hns := hreadNF e hge
    cases hlbe : w.getLastBlockErr with
    | some e2 =>
      have hns2 := hlbNF e2 hlbe
      simp [forkIDIntervalsRun, readForkIDs, afterRead, hge, hns, hlbe, hns2, hbranch]
    | none =>
      simp [forkIDIntervalsRun, readForkIDs, afterRead, hge, hns, hlbe, hbranch]
  | none =>
    have hc : w.storeContents = [] := by
      simpa [readForkIDs, hge] using hempty
    cases hlbe : w.getLastBlockErr with
    | some e2 =>
      have hns2 := hlbNF e2 hlbe
      simp [forkIDIntervalsRun, readForkIDs, afterRead, hge, hc, hlbe, hns2, hbranch]
    | none =>
      simp [forkIDIntervalsRun, readForkIDs, afterRead, hge, hc, hlbe, hbranch]

/-- Witness for C3 at the concrete world `Wfresh`. -/
theorem c3_witness :
    forkIDIntervalsRun Wfresh 100 =
      ⟨[fi1], none, [Event.oracleCall 100 100], Wfresh.storeContents⟩ :=
  c3_fresh_chain_ephemeral Wfresh 100 [fi1]
    (fun e he => by simp [Wfresh] at he) rfl
    (fun e he => by simp [Wfresh] at he) rfl rfl (by decide)

/-- A world with an empty store and a last synchronized block where every
`AddForkID` call fails with error 7 and the rollback fails with error 9. -/
def WdoubleFail : World where
  storeContents := []
  getForkIDsErr := none
  lastBlock := some 5000
  getLastBlockErr := none
  getForks := fun _ _ => .ok [fi1, fi2]
  beginTxErr := none
  addForkIDErr := fun _ => some 7
  commitErr := none
  rollbackErr := some 9

/-- Claim C4 is false on the code: in the run where the interval write fails
with error 7 and the rollback fails with error 9, run.go line 336 returns the
bare rollback error, so the returned error value is exactly the primitive
rollback error: it mentions error 9 but not the original write failure 7,
which is dropped from the returned error (it is only logged). -/
theorem c4_counterexample :
    (forkIDIntervalsRun WdoubleFail 100).error = some (Err.storeE false 9) ∧
      Err.mentionsId (Err.storeE false 9) 9 = true ∧
      Err.mentionsId (Err.storeE false 9) 7 = false := by
  decide

/-- Claim C4 amended: when an interval write inside the persistence
transaction fails and the subsequent rollback also fails, the resolver
returns the bare rollback error alone; the original write failure is not part
of the returned error, and the store is left unchanged. -/
theorem c4_rollback_error_returned_alone (w : World) (g B : Nat)
    (L : List ForkIDInterval) (wid rid : Nat)
    (hreadNF : ∀ e, w.getForkIDsErr = some e → e.notSync = true)
    (hempty : readForkIDs w = [])
    (hlbok : w.getLastBlockErr = none) (hlb : w.lastBlock = some B)
    (horacle : w.getForks g B = .ok L) (hLne : L ≠ [])
    (hbegin : w.beginTxErr = none)
    (hfail : (addLoop w L).2 = some wid)
    (hrb : w.rollbackErr = some rid) :
    (forkIDIntervalsRun w g).error = some (Err.storeE false rid) ∧
      (forkIDIntervalsRun w g).finalStore = w.storeContents := by
  have hlen : (L.length == 0) = false := by simp [List.length_eq_zero, hLne]
  have hpersist :
      (persistForks w [Event.oracleCall g B] L).error = some (Err.storeE false rid) ∧
        (persistForks w [Event.oracleCall g B] L).finalStore = w.storeContents := by
    simp [persistForks, hbegin, hfail, hrb]
  have hrun : forkIDIntervalsRun w g = persistForks w [Event.oracleCall g B] L := by
    cases hge : w.getForkIDsErr with
    | some e =>
      have hns := hreadNF e hge
      simp [forkIDIntervalsRun, readForkIDs, afterRead, emptyStoreBranch, readLastBlock,
        hge, hns, hlbok, hlb, horacle, hlen]
    | none =>
      have hc : w.storeContents = [] := by
        simpa [readForkIDs, hge] using hempty
      simp [forkIDIntervalsRun, readForkIDs, afterRead, emptyStoreBranch, readLastBlock,
        hge, hc, hlbok, hlb, horacle, hlen]
  rw [hrun]
  exact hpersist

/-- Witness for the amended C4 at the concrete world `WdoubleFail`. -/
theorem c4_witness :
    (forkIDIntervalsRun WdoubleFail 100).error = some (Err.storeE false 9) ∧
      (forkIDIntervalsRun WdoubleFail 100).finalStore = WdoubleFail.storeContents :=
  c4_rollback_error_returned_alone WdoubleFail 100 5000 [fi1, fi2] 7 9
    (fun e he => by simp [WdoubleFail] at he) rfl rfl rfl rfl (by decide) rfl rfl rfl

/-- A world with an empty store whose oracle answers every range with the
empty list. -/
def WemptyOracle : World where
  storeContents := []
  getForkIDsErr := none
  lastBlock := some 5000
  getLastBlockErr := none
  getForks := fun _ _ => .ok []
  beginTxErr := none
  addForkIDErr := fun _ => none
  commitErr := none
  rollbackErr := none

/-- Claim C6: when the store reports zero intervals and the oracle answer for
the queried range (which is [genesis, lastBlock] when a last block exists and
[genesis, genesis] otherwise) is the empty list, the resolver fails with the
no-forkID error and the store is left unmodified; the trace holds only the
one oracle call, so no transaction is opened and nothing is written. -/
theorem c6_empty_oracle_answer_fails (w : World) (g : Nat)
    (hreadNF : ∀ e, w.getForkIDsErr = some e → e.notSync = true)
    (hempty : readForkIDs w = [])
    (hlbNF : ∀ e, w.getLastBlockErr = some e → e.notSync = true)
    (horacle : w.getForks g ((readLastBlock w).getD g) = .ok []) :
    forkIDIntervalsRun w g =
      ⟨[], some (.plain msgNoForkID),
        [Event.oracleCall g ((readLastBlock w).getD g)], w.storeContents⟩ := by
  have hbranch :
      emptyStoreBranch w g (readLastBlock w) =
        ⟨[], some (.plain msgNoForkID),
          [Event.oracleCall g ((readLastBlock w).getD g)], w.storeContents⟩ := by
    cases hlbv : readLastBlock w with
    | some b =>
      have ho : w.getForks g b = .ok [] := by simpa [hlbv] using horacle
      simp [emptyStoreBranch, hlbv, ho]
    | none =>
      have ho : w.getForks g g = .ok [] := by simpa [hlbv] using horacle
      simp [emptyStoreBranch, hlbv, ho]
  cases hge : w.getForkIDsErr with
  | some e =>
    have hns := hreadNF e hge
    cases hlbe : w.getLastBlockErr with
    | some e2 =>
      have hns2 := hlbNF e2 hlbe
      simp [forkIDIntervalsRun, readForkIDs, afterRead, hge, hns, hlbe, hns2, hbranch]
    | none =>
      simp [forkIDIntervalsRun, readForkIDs, afterRead, hge, hns, hlbe, hbranch]
  | none =>
    have hc : w.storeContents = [] := by
      simpa [readForkIDs, hge] using hempty
    cases hlbe : w.getLastBlockErr with
    | some e2 =>
      have hns2 := hlbNF e2 hlbe
      simp [forkIDIntervalsRun, readForkIDs, afterRead, hge, hc, hlbe, hns2, hbranch]
    | none =>
      simp [forkIDIntervalsRun, readForkIDs, afterRead, hge, hc, hlbe, hbranch]

/-- Witness for C6 at the concrete world `WemptyOracle`. -/
theorem c6_witness :
    forkIDIntervalsRun WemptyOracle 100 =
      ⟨[], some (.plain msgNoForkID),
        [Event.oracleCall 100 ((readLastBlock WemptyOracle).getD 100)],
        WemptyOracle.storeContents⟩ :=
  c6_empty_oracle_answer_fails WemptyOracle 100
    (fun e he => by simp [WemptyOracle] at he) rfl
    (fun e he => by simp [WemptyOracle] at he) rfl

/-- The persistence step either fails with some error and an empty result
slice, or succeeds and returns exactly the intervals it was given. -/
theorem persistForks_cases (w : World) (pre : List Event) (L : List ForkIDInterval) :
    ((persistForks w pre L).error ≠ none ∧ (persistForks w pre L).intervals = []) ∨
      ((persistForks w pre L).error = none ∧ (persistForks w pre L).intervals = L) := by
  cases hb : w.beginTxErr with
  | some bid => left; simp [persistForks, hb]
  | none =>
    cases hr : (addLoop w L).2 with
    | some wid =>
      cases hrb : w.rollbackErr with
      | some rid => left; simp [persistForks, hb, hr, hrb]
      | none => left; simp [persistForks, hb, hr, hrb]
    | none =>
      cases hc : w.commitErr with
      | some cid =>
        cases hrb : w.rollbackErr with
        | some rid => left; simp [persistForks, hb, hr, hc, hrb]
        | none => left; simp [persistForks, hb, hr, hc, hrb]
      | none => right; simp [persistForks, hb, hr, hc]

/-- The empty-store branch either fails with an empty result slice or
succeeds with a non-empty one. -/
theorem emptyStoreBranch_cases (w : World) (g : Nat) (lb : Option Nat) :
    ((emptyStoreBranch w g lb).error ≠ none ∧ (emptyStoreBranch w g lb).intervals = []) ∨
      ((emptyStoreBranch w g lb).error = none ∧ (emptyStoreBranch w g lb).intervals ≠ []) := by
  cases lb with
  | some b =>
    cases ho : w.getForks g b with
    | error oid => left; simp [emptyStoreBranch, ho]
    | ok L =>
      cases hlen : (L.length == 0) with
      | true => left; simp [emptyStoreBranch, ho, hlen]
      | false =>
        have hLne : L ≠ [] := by
          intro h
          subst h
          simp at hlen
        have heq : emptyStoreBranch w g (some b) =
            persistForks w [Event.oracleCall g b] L := by
          simp [emptyStoreBranch, ho, hlen]
        rw [heq]
        rcases persistForks_cases w [Event.oracleCall g b] L with ⟨h1, h2⟩ | ⟨h1, h2⟩
        · exact Or.inl ⟨h1, h2⟩
        · exact Or.inr ⟨h1, by rw [h2]; exact hLne⟩
  | none =>
    cases ho : w.getForks g g with
    | error oid => left; simp [emptyStoreBranch, ho]
    | ok L =>
      cases hlen : (L.length == 0) with
      | true => left; simp [emptyStoreBranch, ho, hlen]
      | false =>
        have hLne : L ≠ [] := by
          intro h
          subst h
          simp at hlen
        right
        constructor
        · simp [emptyStoreBranch, ho, hlen]
        · simp [emptyStoreBranch, ho, hlen]
          exact hLne

/-- After the store read, the resolver either fails with an empty result
slice or succeeds with a non-empty one. -/
theorem afterRead_cases (w : World) (g : Nat) (I : List ForkIDInterval) :
    ((afterRead w g I).error ≠ none ∧ (afterRead w g I).intervals = []) ∨
      ((afterRead w g I).error = none ∧ (afterRead w g I).intervals ≠ []) := by
  cases hlen : (I.length == 0) with
  | false =>
    have hIne : I ≠ [] := by
      intro h
      subst h
      simp at hlen
    right
    constructor
    · simp [afterRead, hlen]
    · simp [afterRead, hlen]
      exact hIne
  | true =>
    cases hlbe : w.getLastBlockErr with
    | some e =>
      cases hns : e.notSync with
      | false => left; simp [afterRead, hlen, hlbe, hns]
      | true =>
        have heq : afterRead w g I = emptyStoreBranch w g (readLastBlock w) := by
          simp [afterRead, hlen, hlbe, hns]
        rw [heq]
        exact emptyStoreBranch_cases w g (readLastBlock w)
    | none =>
      have heq : afterRead w g I = emptyStoreBranch w g (readLastBlock w) := by
        simp [afterRead, hlen, hlbe]
      rw [heq]
      exact emptyStoreBranch_cases w g (readLastBlock w)

/-- A full run either fails with an empty result slice or succeeds with a
non-empty one. -/
theorem forkIDIntervalsRun_cases (w : World) (g : Nat) :
    ((forkIDIntervalsRun w g).error ≠ none ∧ (forkIDIntervalsRun w g).intervals = []) ∨
      ((forkIDIntervalsRun w g).error = none ∧ (forkIDIntervalsRun w g).intervals ≠ []) := by
  cases hge : w.getForkIDsErr with
  | some e =>
    cases hns : e.notSync with
    | false => left; simp [forkIDIntervalsRun, hge, hns]
    | true =>
      have heq : forkIDIntervalsRun w g = afterRead w g (readForkIDs w) := by
        simp [forkIDIntervalsRun, hge, hns]
      rw [heq]
      exact afterRead_cases w g (readForkIDs w)
  | none =>
    have heq : forkIDIntervalsRun w g = afterRead w g (readForkIDs w) := by
      simp [forkIDIntervalsRun, hge]
    rw [heq]
    exact afterRead_cases w g (readForkIDs w)

/-- Claim C7: whenever the resolver returns without an error, the interval
sequence it returns is non-empty, for every combination of store and oracle
responses. -/
theorem c7_success_is_nonempty (w : World) (g : Nat)
    (h : (forkIDIntervalsRun w g).error = none) :
    (forkIDIntervalsRun w g).intervals ≠ [] := by
  rcases forkIDIntervalsRun_cases w g with ⟨h1, _⟩ | ⟨_, h2⟩
  · exact absurd h h1
  · exact h2

/-- Witness for C7 at the concrete world `Wfull`. -/
theorem c7_witness :
    (forkIDIntervalsRun Wfull 100).error = none ∧
      (forkIDIntervalsRun Wfull 100).intervals ≠ [] :=
  ⟨by decide, c7_success_is_nonempty Wfull 100 (by decide)⟩

/-- Claim C10: whenever the resolver returns a non-nil error, the interval
sequence returned alongside it is the empty sequence. -/
theorem c10_failure_returns_empty_slice (w : World) (g : Nat)
    (h : (forkIDIntervalsRun w g).error ≠ none) :
    (forkIDIntervalsRun w g).intervals = [] := by
  rcases forkIDIntervalsRun_cases w g with ⟨_, h2⟩ | ⟨h1, _⟩
  · exact h2
  · exact absurd h1 h

/-- Witness for C10 at the concrete world `WemptyOracle`. -/
theorem c10_witness :
    (forkIDIntervalsRun WemptyOracle 100).error ≠ none ∧
      (forkIDIntervalsRun WemptyOracle 100).intervals = [] :=
  ⟨by decide, c10_failure_returns_empty_slice WemptyOracle 100 (by decide)⟩

/-- Without a last synchronized block the empty-store branch performs exactly
one collaborator call: the oracle query over [genesis, genesis]. -/
theorem emptyStoreBranch_none_events (w : World) (g : Nat) :
    (emptyStoreBranch w g none).events = [Event.oracleCall g g] := by
  cases ho : w.getForks g g with
  | error oid => simp [emptyStoreBranch, ho]
  | ok L =>
    cases hlen : (L.length == 0) with
    | true => simp [emptyStoreBranch, ho, hlen]
    | false => simp [emptyStoreBranch, ho, hlen]

/-- Claim C8: an `ErrStateNotSynchronized` result from either store read is
never returned as an error and control proceeds (to the rest of the
resolution, reaching the oracle query when nothing else fails first), whereas
any other failure of the two store reads is returned immediately, with an
empty trace, so the oracle is never queried. -/
theorem c8_notsync_is_control_flow (w : World) (g : Nat) :
    (∀ e, w.getForkIDsErr = some e → e.notSync = false →
      forkIDIntervalsRun w g =
        ⟨[], some (.wrapped msgGetForkIDs (.storeE e.notSync e.id)), [], w.storeContents⟩) ∧
    (∀ e, w.getForkIDsErr = some e → e.notSync = true →
      forkIDIntervalsRun w g = afterRead w g []) ∧
    (∀ e, (∀ e0, w.getForkIDsErr = some e0 → e0.notSync = true) → readForkIDs w = [] →
      w.getLastBlockErr = some e → e.notSync = false →
      forkIDIntervalsRun w g =
        ⟨[], some (.wrapped msgLastBlock (.storeE e.notSync e.id)), [], w.storeContents⟩) ∧
    (∀ e, (∀ e0, w.getForkIDsErr = some e0 → e0.notSync = true) → readForkIDs w = [] →
      w.getLastBlockErr = some e → e.notSync = true →
      forkIDIntervalsRun w g = emptyStoreBranch w g none ∧
        Event.oracleCall g g ∈ (forkIDIntervalsRun w g).events) := by
  refine ⟨?_, ?_, ?_, ?_⟩
  · intro e hge hns
    simp [forkIDIntervalsRun, hge, hns]
  · intro e hge hns
    simp [forkIDIntervalsRun, readForkIDs, hge, hns]
  · intro e hreadNF hread hlbe hns
    cases hge : w.getForkIDsErr with
    | some e0 =>
      have hns0 := hreadNF e0 hge
      simp [forkIDIntervalsRun, readForkIDs, afterRead, hge, hns0, hlbe, hns]
    | none =>
      have hc : w.storeContents = [] := by
        simpa [readForkIDs, hge] using hread
      simp [forkIDIntervalsRun, readForkIDs, afterRead, hge, hc, hlbe, hns]
  · intro e hreadNF hread hlbe hns
    have heq : forkIDIntervalsRun w g = emptyStoreBranch w g none := by
      cases hge : w.getForkIDsErr with
      | some e0 =>
        have hns0 := hreadNF e0 hge
        simp [forkIDIntervalsRun, readForkIDs, afterRead, readLastBlock, hge, hns0, hlbe, hns]
      | none =>
        have hc : w.storeContents = [] := by
          simpa [readForkIDs, hge] using hread
        simp [forkIDIntervalsRun, readForkIDs, afterRead, readLastBlock, hge, hc, hlbe, hns]
    refine ⟨heq, ?_⟩
    rw [heq, emptyStoreBranch_none_events w g]
    exact List.mem_singleton.mpr rfl

/-- A world whose two store reads both fail with `ErrStateNotSynchronized`. -/
def WnotSync : World where
  storeContents := [fi1]
  getForkIDsErr := some ⟨true, 3⟩
  lastBlock := some 7000
  getLastBlockErr := some ⟨true, 4⟩
  getForks := fun _ _ => .ok [fi1]
  beginTxErr := none
  addForkIDErr := fun _ => none
  commitErr := none
  rollbackErr := none

/-- A world whose interval read fails with a genuine (non-NotSynchronized)
store error. -/
def WfatalRead : World where
  storeContents := [fi1]
  getForkIDsErr := some ⟨false, 11⟩
  lastBlock := some 7000
  getLastBlockErr := none
  getForks := fun _ _ => .ok [fi1]
  beginTxErr := none
  addForkIDErr := fun _ => none
  commitErr := none
  rollbackErr := none

/-- A world with an empty store whose last-block read fails with a genuine
(non-NotSynchronized) store error. -/
def WfatalLast : World where
  storeContents := []
  getForkIDsErr := none
  lastBlock := some 7000
  getLastBlockErr := some ⟨false, 12⟩
  getForks := fun _ _ => .ok [fi1]
  beginTxErr := none
  addForkIDErr := fun _ => none
  commitErr := none
  rollbackErr := none

/-- Witness for C8 at the concrete worlds `WfatalRead`, `WnotSync` and
`WfatalLast`, one per part of the claim. -/
theorem c8_witness :
    forkIDIntervalsRun WfatalRead 100 =
      ⟨[], some (.wrapped msgGetForkIDs (.storeE false 11)), [], WfatalRead.storeContents⟩ ∧
    forkIDIntervalsRun WnotSync 100 = afterRead WnotSync 100 [] ∧
    forkIDIntervalsRun WfatalLast 100 =
      ⟨[], some (.wrapped msgLastBlock (.storeE false 12)), [], WfatalLast.storeContents⟩ ∧
    (forkIDIntervalsRun WnotSync 100 = emptyStoreBranch WnotSync 100 none ∧
      Event.oracleCall 100 100 ∈ (forkIDIntervalsRun WnotSync 100).events) :=
  ⟨(c8_notsync_is_control_flow WfatalRead 100).1 ⟨false, 11⟩ rfl rfl,
   (c8_notsync_is_control_flow WnotSync 100).2.1 ⟨true, 3⟩ rfl rfl,
   (c8_notsync_is_control_flow WfatalLast 100).2.2.1 ⟨false, 12⟩
     (fun e0 h0 => by simp [WfatalLast] at h0) rfl rfl rfl,
   (c8_notsync_is_control_flow WnotSync 100).2.2.2 ⟨true, 4⟩
     (fun e0 h0 => by
       have h1 : (⟨true, 3⟩ : StoreErr) = e0 := Option.some.inj h0
       rw [← h1])
     rfl rfl rfl⟩

/-- The component-name constant matched by the start loop (run.go line 99);
its defining file is outside this slice, so only equality with itself
matters here. -/
def ETHTXMANAGER : String := "ethtx-manager"

/-- What `start` has set up by the time it reaches `waitSignal` (run.go lines
59-63, 94-109): the cancellation registry `cancelFuncs` is declared at line
61 and no statement of `start` ever appends to it; one goroutine is started
per selected component equal to ETHTXMANAGER; the metrics and profiling
servers are started exactly when their flags are enabled. -/
structure StartOutcome where
  cancelFuncs : List Unit
  componentsStarted : Nat
  metricsStarted : Bool
  profilingStarted : Bool
  deriving DecidableEq, Repr

/-- The registration and component-start behaviour of `start` (run.go lines
59-63, 94-109). -/
def startRun (components : List String) (metricsEnabled profilingEnabled : Bool) :
    StartOutcome where
  cancelFuncs := []
  componentsStarted := (components.filter (fun c => c == ETHTXMANAGER)).length
  metricsStarted := metricsEnabled
  profilingStarted := profilingEnabled

/-- What `waitSignal` does on an interrupt (run.go lines 149-158): one call
per registered cancel function, then exit. -/
structure SignalOutcome where
  cancelCalls : Nat
  exitStatus : Nat
  deriving DecidableEq, Repr

/-- run.go lines 145-161: on an interrupt, call every registered cancel
function in registration order and exit with status 0. -/
def waitSignalRun (cancelFuncs : List Unit) : SignalOutcome where
  cancelCalls := cancelFuncs.length
  exitStatus := 0

/-- Claim C5 is false on the code: with component selection [ETHTXMANAGER]
and metrics disabled, the cancellation registry handed to `waitSignal` is
empty (nothing in `start` ever appends to `cancelFuncs`), so the termination
signal triggers zero cancellation calls, not exactly one. -/
theorem c5_counterexample :
    (waitSignalRun (startRun [ETHTXMANAGER] false false).cancelFuncs).cancelCalls = 0 ∧
      ¬ (waitSignalRun (startRun [ETHTXMANAGER] false false).cancelFuncs).cancelCalls = 1 := by
  decide

/-- Claim C5 amended: with component selection [ETHTXMANAGER] and metrics
disabled, exactly one long-running component is started and no metrics or
profiling endpoint is launched, but the termination signal triggers zero
cancellation calls — the registry is never populated — before the process
exits with status 0. -/
theorem c5_shutdown_cancels_nothing :
    (startRun [ETHTXMANAGER] false false).componentsStarted = 1 ∧
      (startRun [ETHTXMANAGER] false false).metricsStarted = false ∧
      (startRun [ETHTXMANAGER] false false).profilingStarted = false ∧
      waitSignalRun (startRun [ETHTXMANAGER] false false).cancelFuncs = ⟨0, 0⟩ := by
  decide

/-- One observable step of the migration phase of `start`. -/
inductive StartEvent where
  | runMigrationsEvent
  | checkMigrationsEvent
  | fatalExit
  deriving DecidableEq, Repr

/-- run.go lines 53-57 and 122-127: migrations are run only when the
`FlagMigrations` skip flag is false; `checkStateMigrations` then runs
unconditionally and calls `log.Fatal` (process termination) when the check
fails. -/
def migrationPhase (migrationsFlag : Bool) (checkFails : Bool) : List StartEvent :=
  (if !migrationsFlag then [StartEvent.runMigrationsEvent] else []) ++
    [StartEvent.checkMigrationsEvent] ++
    (if checkFails then [StartEvent.fatalExit] else [])

/-- Claim C9: the schema-migration check runs for every value of the skip
flag and of the check outcome; a failing check terminates the process; and
running the migrations themselves happens exactly when the skip flag is
false. -/
theorem c9_check_always_runs (migrationsFlag checkFails : Bool) :
    StartEvent.checkMigrationsEvent ∈ migrationPhase migrationsFlag checkFails ∧
      StartEvent.fatalExit ∈ migrationPhase migrationsFlag true ∧
      StartEvent.runMigrationsEvent ∈ migrationPhase false checkFails ∧
      ¬ StartEvent.runMigrationsEvent ∈ migrationPhase true checkFails := by
  cases migrationsFlag <;> cases checkFails <;> decide

/-- Witness for C9 with the skip flag set and a failing check. -/
theorem c9_witness :
    StartEvent.checkMigrationsEvent ∈ migrationPhase true true ∧
      StartEvent.fatalExit ∈ migrationPhase true true ∧
      StartEvent.runMigrationsEvent ∈ migrationPhase false true ∧
      ¬ StartEvent.runMigrationsEvent ∈ migrationPhase true true :=
  c9_check_always_runs true true

end ZkEvmEthTxManager
